import Mathlib

/-!
Shallow embedding of the account ledger in `src/output/accounts.py`.

Python floats are modelled as rationals (`ℚ`): every claim checked here
concerns exact sums and comparisons applied in the same order on both
sides, so the abstraction is faithful for these properties.  Python dicts
with string keys are modelled as duplicate-free association lists in
insertion order.  A transaction record (a Python dict with heterogeneous
fields) is an association list from field name to value; the real-time
`timestamp` field is not modelled, and no claim depends on it.  A Python
`raise ValueError(msg)` is an `Except.error` carrying a constructor that
stands for the exact message.
-/

namespace Accounts

/-- A value stored in one field of a transaction record. -/
inductive TxValue where
  | num (q : ℚ)
  | str (s : String)
deriving DecidableEq, Repr

/-- A transaction record: field name to value, in insertion order. -/
abbrev TxRecord := List (String × TxValue)

/-- Python `d.get(k)` / `d[k]` lookup on a string-keyed dict. -/
def dictGet : List (String × ℚ) → String → Option ℚ
  | [], _ => none
  | (k0, v0) :: rest, k => if k0 = k then some v0 else dictGet rest k

/-- Python `d[k] = v`: update in place when the key is present, append
at the end when absent (dict insertion-order semantics). -/
def dictSet : List (String × ℚ) → String → ℚ → List (String × ℚ)
  | [], k, v => [(k, v)]
  | (k0, v0) :: rest, k, v =>
      if k0 = k then (k0, v) :: rest else (k0, v0) :: dictSet rest k v

/-- Python `del d[k]`. -/
def dictDel : List (String × ℚ) → String → List (String × ℚ)
  | [], _ => []
  | (k0, v0) :: rest, k => if k0 = k then rest else (k0, v0) :: dictDel rest k

/-- Field lookup in a transaction record. -/
def fieldGet : TxRecord → String → Option TxValue
  | [], _ => none
  | (k0, v0) :: rest, k => if k0 = k then some v0 else fieldGet rest k

/-- The string stored under field `k`, or `""` when absent/non-string. -/
def fieldStr (t : TxRecord) (k : String) : String :=
  match fieldGet t k with
  | some (TxValue.str s) => s
  | _ => ""

/-- The number stored under field `k`, or `0` when absent/non-numeric. -/
def fieldNum (t : TxRecord) (k : String) : ℚ :=
  match fieldGet t k with
  | some (TxValue.num q) => q
  | _ => 0

/-- The distinct `ValueError` messages raised by `accounts.py`. -/
inductive AccountError where
  /-- Python: ValueError with message Insufficient funds (withdraw). -/
  | insufficientFunds
  /-- Python: ValueError with message Unknown share symbol. -/
  | unknownSymbol
  /-- Python: ValueError with message Insufficient funds to buy shares. -/
  | insufficientFundsToBuy
  /-- Python: ValueError, you do not own any shares of this symbol. -/
  | noSharesOfSymbol
  /-- Python: ValueError, you do not own enough shares to sell. -/
  | notEnoughSharesToSell
deriving DecidableEq, Repr

/-- The `Account` class state: `balance`, `holdings`, `transactions`,
`initial_deposit`, and the never-updated `profit_loss` field set to 0 in
`__init__`. -/
structure Account where
  balance : ℚ
  holdings : List (String × ℚ)
  transactions : List TxRecord
  initial_deposit : ℚ
  profit_loss : ℚ
deriving DecidableEq, Repr

/-- `Account.__init__(initial_balance=0)`. -/
def mkAccount (initial_balance : ℚ) : Account :=
  { balance := initial_balance
    holdings := []
    transactions := []
    initial_deposit := initial_balance
    profit_loss := 0 }

/-- The dict appended by `deposit` (keys: type, amount; timestamp omitted). -/
def depositRecord (amount : ℚ) : TxRecord :=
  [("type", TxValue.str "deposit"), ("amount", TxValue.num amount)]

/-- The dict appended by `withdraw` (keys: type, amount). -/
def withdrawalRecord (amount : ℚ) : TxRecord :=
  [("type", TxValue.str "withdrawal"), ("amount", TxValue.num amount)]

/-- The dict appended by `buy_shares` (keys: type, symbol, quantity, price). -/
def buyRecord (symbol : String) (quantity price : ℚ) : TxRecord :=
  [("type", TxValue.str "buy"), ("symbol", TxValue.str symbol),
   ("quantity", TxValue.num quantity), ("price", TxValue.num price)]

/-- The dict appended by `sell_shares` (keys: type, symbol, quantity, price). -/
def sellRecord (symbol : String) (quantity price : ℚ) : TxRecord :=
  [("type", TxValue.str "sell"), ("symbol", TxValue.str symbol),
   ("quantity", TxValue.num quantity), ("price", TxValue.num price)]

/-- `Account.deposit`: no validation in the source; unconditionally adds
`amount` to the balance and appends a deposit record. -/
def Account.deposit (a : Account) (amount : ℚ) : Account :=
  { a with
    balance := a.balance + amount
    transactions := a.transactions ++ [depositRecord amount] }

/-- `Account.withdraw`: raises when `amount > balance`, otherwise deducts
and appends a withdrawal record. -/
def Account.withdraw (a : Account) (amount : ℚ) : Except AccountError Account :=
  if amount > a.balance then Except.error AccountError.insufficientFunds
  else Except.ok
    { a with
      balance := a.balance - amount
      transactions := a.transactions ++ [withdrawalRecord amount] }

/-- The hardcoded price table in `get_share_price`. -/
def sharePrices : List (String × ℚ) :=
  [("AAPL", 150), ("TSLA", 200), ("GOOGL", 3000)]

/-- `get_share_price(symbol)`: `prices.get(symbol)` on the static table. -/
def get_share_price (symbol : String) : Option ℚ :=
  dictGet sharePrices symbol

/-- `Account.buy_shares`: oracle lookup first, then the funds check, then
balance deduction, holdings increment (`holdings.get(symbol, 0) + quantity`),
and the buy record. -/
def Account.buy_shares (a : Account) (symbol : String) (quantity : ℚ) :
    Except AccountError Account :=
  match get_share_price symbol with
  | none => Except.error AccountError.unknownSymbol
  | some price =>
      let cost := price * quantity
      if cost > a.balance then Except.error AccountError.insufficientFundsToBuy
      else Except.ok
        { a with
          balance := a.balance - cost
          holdings := dictSet a.holdings symbol
            (((dictGet a.holdings symbol).getD 0) + quantity)
          transactions := a.transactions ++ [buyRecord symbol quantity price] }

/-- `Account.sell_shares`: membership check, then quantity-vs-holding check,
then the oracle lookup; on success adds revenue, decrements the holding
(deleting the key when the decremented value is 0 — the source decrements
then deletes on exact 0, which this conditional reproduces), and appends
the sell record. -/
def Account.sell_shares (a : Account) (symbol : String) (quantity : ℚ) :
    Except AccountError Account :=
  match dictGet a.holdings symbol with
  | none => Except.error AccountError.noSharesOfSymbol
  | some held =>
      if quantity > held then Except.error AccountError.notEnoughSharesToSell
      else
        match get_share_price symbol with
        | none => Except.error AccountError.unknownSymbol
        | some price =>
            let newHeld := held - quantity
            Except.ok
              { a with
                balance := a.balance + price * quantity
                holdings :=
                  if newHeld = 0 then dictDel a.holdings symbol
                  else dictSet a.holdings symbol newHeld
                transactions := a.transactions ++ [sellRecord symbol quantity price] }

/-- `Account.get_holdings`: the source returns `self.holdings` itself — the
live internal dict, not a copy. -/
def Account.get_holdings (a : Account) : List (String × ℚ) :=
  a.holdings

/-- `Account.get_profit_loss`: the source returns
`self.balance - self.initial_deposit` (holdings are not valued). -/
def Account.get_profit_loss (a : Account) : ℚ :=
  a.balance - a.initial_deposit

/-- `Account.get_transactions`: returns `self.transactions` itself. -/
def Account.get_transactions (a : Account) : List TxRecord :=
  a.transactions

/-- Effect on the account of the Python fragment
`h = acct.get_holdings(); h[k] = v`.  Because `get_holdings` returns
`self.holdings` (the same object, no copy), the subscript assignment on the
returned dict writes into the account's own holdings. -/
def get_holdings_then_external_set (a : Account) (k : String) (v : ℚ) : Account :=
  { a with holdings := dictSet (Account.get_holdings a) k v }

/-- One requested operation on the account. -/
inductive Op where
  | deposit (amount : ℚ)
  | withdraw (amount : ℚ)
  | buy (symbol : String) (quantity : ℚ)
  | sell (symbol : String) (quantity : ℚ)

/-- Run one operation; a raising call leaves the account exactly as it was
(in the source every raise happens before any state change). -/
def applyOp (a : Account) : Op → Account
  | Op.deposit amount => a.deposit amount
  | Op.withdraw amount =>
      match a.withdraw amount with
      | Except.ok b => b
      | Except.error _ => a
  | Op.buy symbol quantity =>
      match a.buy_shares symbol quantity with
      | Except.ok b => b
      | Except.error _ => a
  | Op.sell symbol quantity =>
      match a.sell_shares symbol quantity with
      | Except.ok b => b
      | Except.error _ => a

/-- Run a sequence of operations from a starting state. -/
def runOps (a : Account) (ops : List Op) : Account :=
  ops.foldl applyOp a

/-- Modelled from the spec: one step of the replay procedure of claim C3 —
add deposits and sell revenues, subtract withdrawals and buy costs. -/
def spec_replayStep (bal : ℚ) (t : TxRecord) : ℚ :=
  if fieldStr t "type" = "deposit" then bal + fieldNum t "amount"
  else if fieldStr t "type" = "withdrawal" then bal - fieldNum t "amount"
  else if fieldStr t "type" = "buy" then bal - fieldNum t "price" * fieldNum t "quantity"
  else if fieldStr t "type" = "sell" then bal + fieldNum t "price" * fieldNum t "quantity"
  else bal

/-- Modelled from the spec: replay of the whole log from a starting balance. -/
def spec_replayBalance (init : ℚ) (txs : List TxRecord) : ℚ :=
  txs.foldl spec_replayStep init

/-- Modelled from the spec: portfolio value, the sum over every held symbol
of quantity times the oracle price. -/
def spec_portfolio_value (h : List (String × ℚ)) : ℚ :=
  (h.map (fun p => p.2 * ((get_share_price p.1).getD 0))).sum

/-- Modelled from the spec: profit/loss as total value (cash plus portfolio
value) minus the initial deposit. -/
def spec_get_profit_loss (a : Account) : ℚ :=
  a.balance + spec_portfolio_value a.holdings - a.initial_deposit

/-- The replay invariant of claim C3. -/
def BalanceInv (a : Account) : Prop :=
  spec_replayBalance a.initial_deposit a.transactions = a.balance

end Accounts

namespace Accounts

theorem spec_replayBalance_append (init : ℚ) (txs : List TxRecord) (t : TxRecord) :
    spec_replayBalance init (txs ++ [t]) = spec_replayStep (spec_replayBalance init txs) t := by
  simp [spec_replayBalance, List.foldl_append]

theorem spec_replayStep_depositRecord (bal amount : ℚ) :
    spec_replayStep bal (depositRecord amount) = bal + amount := rfl

theorem spec_replayStep_withdrawalRecord (bal amount : ℚ) :
    spec_replayStep bal (withdrawalRecord amount) = bal - amount := rfl

theorem spec_replayStep_buyRecord (bal quantity price : ℚ) (symbol : String) :
    spec_replayStep bal (buyRecord symbol quantity price) = bal - price * quantity := rfl

theorem spec_replayStep_sellRecord (bal quantity price : ℚ) (symbol : String) :
    spec_replayStep bal (sellRecord symbol quantity price) = bal + price * quantity := rfl

theorem applyOp_balanceInv (a : Account) (op : Op) (h : BalanceInv a) :
    BalanceInv (applyOp a op) := by
  cases op with
  | deposit amount =>
      simp only [BalanceInv, applyOp, Account.deposit] at *
      rw [spec_replayBalance_append, spec_replayStep_depositRecord, h]
  | withdraw amount =>
      by_cases hc : amount > a.balance
      · simpa [BalanceInv, applyOp, Account.withdraw, hc] using h
      · simp only [BalanceInv, applyOp, Account.withdraw, if_neg hc] at *
        rw [spec_replayBalance_append, spec_replayStep_withdrawalRecord, h]
  | buy symbol quantity =>
      rcases hp : get_share_price symbol with _ | price
      · simpa [BalanceInv, applyOp, Account.buy_shares, hp] using h
      · by_cases hc : price * quantity > a.balance
        · simpa [BalanceInv, applyOp, Account.buy_shares, hp, hc] using h
        · simp only [BalanceInv, applyOp, Account.buy_shares, hp, if_neg hc] at *
          rw [spec_replayBalance_append, spec_replayStep_buyRecord, h]
  | sell symbol quantity =>
      rcases hg : dictGet a.holdings symbol with _ | held
      · simpa [BalanceInv, applyOp, Account.sell_shares, hg] using h
      · by_cases hq : quantity > held
        · simpa [BalanceInv, applyOp, Account.sell_shares, hg, hq] using h
        · rcases hp : get_share_price symbol with _ | price
          · simpa [BalanceInv, applyOp, Account.sell_shares, hg, hq, hp] using h
          · simp only [BalanceInv, applyOp, Account.sell_shares, hg, if_neg hq, hp] at *
            rw [spec_replayBalance_append, spec_replayStep_sellRecord, h]

theorem runOps_balanceInv (ops : List Op) (a : Account) (h : BalanceInv a) :
    BalanceInv (runOps a ops) := by
  induction ops generalizing a with
  | nil => simpa [runOps] using h
  | cons op rest ih =>
      simpa [runOps] using ih (applyOp a op) (applyOp_balanceInv a op h)

/-- Claim C1 (code bug): on the account obtained by depositing 10000 and
buying 10 AAPL at the oracle price 150, the code's `get_profit_loss`
returns -1500 (it ignores the holdings), while the spec formula
`total_value - initial_deposit` gives 0. -/
theorem profit_loss_omits_portfolio :
    (runOps (mkAccount 10000) [Op.buy "AAPL" 10]).get_profit_loss = -1500
    ∧ spec_get_profit_loss (runOps (mkAccount 10000) [Op.buy "AAPL" 10]) = 0 := by
  constructor <;>
    norm_num [runOps, applyOp, Account.buy_shares, Account.get_profit_loss,
      spec_get_profit_loss, spec_portfolio_value, get_share_price, sharePrices,
      dictGet, dictSet, mkAccount, List.foldl, Option.getD]

/-- Claim C2 (code bug): `get_holdings` returns the live internal dict, so
writing through the returned value changes the account's subsequent state:
after buying 10 AAPL the account reads 10 for AAPL, and the external
assignment of 100 through the value returned by `get_holdings` makes the
account itself read 100. -/
theorem get_holdings_external_mutation :
    dictGet (runOps (mkAccount 10000) [Op.buy "AAPL" 10]).holdings "AAPL" = some 10
    ∧ dictGet (get_holdings_then_external_set
        (runOps (mkAccount 10000) [Op.buy "AAPL" 10]) "AAPL" 100).holdings "AAPL"
        = some 100 := by
  constructor <;>
    norm_num [runOps, applyOp, Account.buy_shares, Account.get_holdings,
      get_holdings_then_external_set, get_share_price, sharePrices,
      dictGet, dictSet, mkAccount, List.foldl, Option.getD]

/-- Claim C3 (confirmed): after any sequence of operations (failing calls
change nothing, so this covers every sequence of successful operations),
replaying the recorded log from `initial_deposit` — adding deposits and
sell revenues, subtracting withdrawals and buy costs — yields exactly the
live `balance` field. -/
theorem replay_reproduces_balance (init : ℚ) (ops : List Op) :
    spec_replayBalance (runOps (mkAccount init) ops).initial_deposit
      (runOps (mkAccount init) ops).transactions
      = (runOps (mkAccount init) ops).balance :=
  runOps_balanceInv ops (mkAccount init) rfl

/-- Claim C4 (code bug): `buy_shares` accepts quantity 0 (the source never
validates the quantity), and the resulting holdings dict carries the key
AAPL with value 0 — a non-positive entry persists after an operation. -/
theorem buy_zero_quantity_leaves_zero_entry :
    (runOps (mkAccount 0) [Op.buy "AAPL" 0]).holdings = [("AAPL", 0)] := by
  norm_num [runOps, applyOp, Account.buy_shares, get_share_price, sharePrices,
    dictGet, dictSet, mkAccount, List.foldl, Option.getD]

/-- Claim C5 (code bug): `deposit` performs no validation: depositing -100
on a balance of 1000 succeeds, moving the balance to 900 and appending a
transaction, instead of failing with the balance and log unchanged. -/
theorem deposit_negative_accepted :
    (Account.deposit (mkAccount 1000) (-100)).balance = 900
    ∧ ((Account.deposit (mkAccount 1000) (-100)).transactions).length = 1 := by
  constructor <;> norm_num [Account.deposit, mkAccount]

/-- Claim C6 (confirmed): for every amount strictly greater than the current
balance, `withdraw` fails with the insufficient-funds error; the raise
precedes any state change, so the account is untouched (the error result
carries no updated account). -/
theorem withdraw_insufficient_funds (a : Account) (amount : ℚ)
    (h : amount > a.balance) :
    a.withdraw amount = Except.error AccountError.insufficientFunds := by
  simp [Account.withdraw, h]

/-- Witness for claim C6 at the spec's scenario: withdrawing 20000 from a
10000 balance. -/
theorem withdraw_insufficient_funds_witness :
    (mkAccount 10000).withdraw 20000 = Except.error AccountError.insufficientFunds :=
  withdraw_insufficient_funds (mkAccount 10000) 20000 (by decide)

/-- Claim C7 (code bug): the record appended by a successful deposit has no
balance_after field at all (its keys are only type and amount, plus the
unmodelled timestamp). -/
theorem deposit_record_lacks_balance_after :
    ((Account.deposit (mkAccount 0) 100).transactions).map
      (fun t => fieldGet t "balance_after") = [none] := by
  decide

/-- Claim C8 (code bug): `sell_shares` performs no symbol/quantity shape
checks: selling quantity 0 of a held symbol succeeds and appends a second
transaction instead of failing before the holdings check. -/
theorem sell_zero_quantity_succeeds :
    (((runOps (mkAccount 10000) [Op.buy "AAPL" 10]).sell_shares "AAPL" 0).toOption.map
      (fun b => b.transactions.length)) = some 2 := by
  norm_num [runOps, applyOp, Account.buy_shares, Account.sell_shares,
    get_share_price, sharePrices, dictGet, dictSet, dictDel, mkAccount,
    List.foldl, Option.getD, Except.toOption]

/-- Claim C9 (confirmed): whenever the oracle cannot price the symbol,
`buy_shares` fails with the unknown-symbol error before any state change:
the error result carries no updated account, so balance, holdings and the
log are unchanged and no transaction is appended. -/
theorem buy_shares_unknown_symbol (a : Account) (symbol : String) (quantity : ℚ)
    (h : get_share_price symbol = none) :
    a.buy_shares symbol quantity = Except.error AccountError.unknownSymbol := by
  simp [Account.buy_shares, h]

/-- Witness for claim C9 at the spec's scenario: buying 1 share of ZZZZ,
which the oracle cannot price. -/
theorem buy_shares_unknown_symbol_witness :
    (mkAccount 10000).buy_shares "ZZZZ" 1 = Except.error AccountError.unknownSymbol :=
  buy_shares_unknown_symbol (mkAccount 10000) "ZZZZ" 1 (by decide)

/-- Claim C10 (confirmed): `get_share_price` is a fixed pure function of the
symbol alone — 150 for AAPL, 200 for TSLA, 3000 for GOOGL, none otherwise. -/
theorem get_share_price_table (s : String) :
    get_share_price s =
      (if s = "AAPL" then some (150 : ℚ)
       else if s = "TSLA" then some 200
       else if s = "GOOGL" then some 3000
       else none) := by
  by_cases h1 : s = "AAPL"
  · subst h1; rfl
  · by_cases h2 : s = "TSLA"
    · subst h2; rfl
    · by_cases h3 : s = "GOOGL"
      · subst h3; rfl
      · simp [get_share_price, sharePrices, dictGet, h1, h2, h3,
          Ne.symm h1, Ne.symm h2, Ne.symm h3]

end Accounts
